import Mathlib

/-!
Verification development for the `django-perimeter` access-gate core.

The configuration surface is embedded from `perimeter/settings.py`.
The token model (`perimeter/models.py`) is not part of the sources at hand
(only its test suite and the specification describe it), so those
definitions are modelled from the spec, as marked on each one.

Dates are embedded as integers (a day index), timestamps as naturals,
and Python values as the inductive `PyVal` with Python's `==` semantics.
-/

set_option autoImplicit false

namespace Perimeter

/-- Python runtime values relevant to the settings module: `None`,
booleans, integers and strings. -/
inductive PyVal where
  | none
  | bool (b : Bool)
  | int (n : Int)
  | str (s : String)
deriving DecidableEq, Repr

/-- Python `==` on these values.  Python's `bool` is a subtype of `int`,
so `True == 1` and `False == 0`; values of unrelated types compare
unequal. -/
def pyEq : PyVal → PyVal → Bool
  | .none, .none => true
  | .bool a, .bool b => a == b
  | .bool a, .int n => (if a then (1 : Int) else 0) == n
  | .int n, .bool b => n == (if b then (1 : Int) else 0)
  | .int m, .int n => m == n
  | .str a, .str b => a == b
  | _, _ => false

/-- Python truthiness: `None`, `False`, `0` and `""` are falsy. -/
def pyTruthy : PyVal → Bool
  | .none => false
  | .bool b => b
  | .int n => n != 0
  | .str s => s != ""

/-- Embeds `CAST_AS_BOOL = lambda x: x in (True, 'true', 'True')`.
Tuple membership in Python is decided with `==`. -/
def CAST_AS_BOOL (x : PyVal) : PyVal :=
  .bool (pyEq x (.bool true) || pyEq x (.str "true") || pyEq x (.str "True"))

/-- Embeds `CAST_AS_INT = lambda x: int(x)`.  `int()` raises on `None`
and on non-numeric strings, embedded as `Option.none`. -/
def CAST_AS_INT (x : PyVal) : Option Int :=
  match x with
  | .none => Option.none
  | .bool b => some (if b then 1 else 0)
  | .int n => some n
  | .str s => (s.trim.toInt?)

/-- Embeds `get_setting(setting_name, default_value, cast_func)`:
`cast_func(environ.get(setting_name) or getattr(settings, setting_name,
default_value))`.  `environ.get` yields `None` when the variable is
absent, and Python's `or` falls through on any falsy value (so also on
an empty-string environment variable). -/
def get_setting {α : Type} (env : String → Option String)
    (stg : String → Option PyVal) (setting_name : String)
    (default_value : PyVal) (cast_func : PyVal → α) : α :=
  let e : PyVal := match env setting_name with
    | some s => .str s
    | Option.none => .none
  cast_func (if pyTruthy e then e else (stg setting_name).getD default_value)

/-- Embeds `PERIMETER_ENABLED = get_setting('PERIMETER_ENABLED', False,
cast_func=CAST_AS_BOOL)`. -/
def PERIMETER_ENABLED (env : String → Option String)
    (stg : String → Option PyVal) : PyVal :=
  get_setting env stg "PERIMETER_ENABLED" (.bool false) CAST_AS_BOOL

/-- Embeds `PERIMETER_SESSION_KEY = get_setting('PERIMETER_SESSION_KEY',
"perimeter")` (identity cast). -/
def PERIMETER_SESSION_KEY (env : String → Option String)
    (stg : String → Option PyVal) : PyVal :=
  get_setting env stg "PERIMETER_SESSION_KEY" (.str "perimeter") (fun x => x)

/-- Embeds `PERIMETER_DEFAULT_EXPIRY = get_setting('PERIMETER_DEFAULT_EXPIRY',
7, cast_func=CAST_AS_INT)`. -/
def PERIMETER_DEFAULT_EXPIRY (env : String → Option String)
    (stg : String → Option PyVal) : Option Int :=
  get_setting env stg "PERIMETER_DEFAULT_EXPIRY" (.int 7) CAST_AS_INT

/-- Modelled from the spec: the `AccessToken` data model of
`perimeter/models.py` (absent from the sources; only its tests remain).
`token` is the opaque secret string, `is_active` the manual kill-switch
(default true), `expires_on` a date (embedded as a day index), and the
timestamps are set on persist (`Option.none` before the first persist). -/
structure AccessToken where
  token : String
  is_active : Bool := true
  expires_on : Int
  created_at : Option Nat := Option.none
  updated_at : Option Nat := Option.none
  created_by : Option String := Option.none
deriving DecidableEq, Repr

/-- Modelled from the spec: `has_expired` of `perimeter/models.py` —
the date comparison alone, `expires_on < today`, independent of
`is_active`. -/
def AccessToken.has_expired (t : AccessToken) (today : Int) : Bool :=
  t.expires_on < today

/-- Modelled from the spec: `is_valid` of `perimeter/models.py` —
`is_active AND expires_on >= today` (expiry inclusive of the expiry
date itself). -/
def AccessToken.is_valid (t : AccessToken) (today : Int) : Bool :=
  t.is_active && t.expires_on ≥ today

/-- Modelled from the spec: `default_expiry` of `perimeter/models.py` —
today's date plus the configured number of days (default 7). -/
def default_expiry (today : Int) (expiry_days : Int) : Int :=
  today + expiry_days

/-- Modelled from the spec: the result of a token lookup — either a
stored `AccessToken` or the non-persisted `EmptyToken` sentinel used
for lookup misses. -/
inductive Token where
  | found (t : AccessToken)
  | emptyToken
deriving DecidableEq, Repr

/-- Modelled from the spec: validity of a lookup result; the
`EmptyToken` sentinel's `is_valid` is unconditionally false. -/
def Token.is_valid : Token → Int → Bool
  | .found t, today => t.is_valid today
  | .emptyToken, _ => false

/-- Modelled from the spec: `AccessToken.get_cache_key` of
`perimeter/models.py` — a fixed namespacing prefix plus the token
value, independent of row identity. -/
def get_cache_key (token : String) : String :=
  "perimeter:token:" ++ token

/-- Modelled from the spec: the `AccessTokenUse` audit record of
`perimeter/models.py` — one record per successful redemption,
referencing the redeemed token by value. -/
structure AccessTokenUse where
  token : String
  user_email : String
  user_name : String
  client_ip : String
  client_user_agent : String
  timestamp : Nat
deriving DecidableEq, Repr

/-- Modelled from the spec: the shared mutable world of the core —
the durable token store, the token cache (keyed by cache key), and the
append-only usage log. -/
structure PerimeterState where
  store : List AccessToken
  cache : List (String × AccessToken)
  uses : List AccessTokenUse
deriving DecidableEq, Repr

/-- Lookup of a record in the durable store by token value. -/
def storeGet (store : List AccessToken) (token : String) : Option AccessToken :=
  store.find? (fun t => t.token == token)

/-- Cache read by cache key. -/
def cacheGet (cache : List (String × AccessToken)) (key : String) :
    Option AccessToken :=
  (cache.find? (fun p => p.1 == key)).map (fun p => p.2)

/-- Cache write: the entry under `key` is overwritten with the fresh
object. -/
def cacheSet (cache : List (String × AccessToken)) (key : String)
    (t : AccessToken) : List (String × AccessToken) :=
  (key, t) :: cache.filter (fun p => !(p.1 == key))

/-- Cache eviction of one key. -/
def cacheEvict (cache : List (String × AccessToken)) (key : String) :
    List (String × AccessToken) :=
  cache.filter (fun p => !(p.1 == key))

/-- Modelled from the spec: the timestamp discipline of
`AccessToken.save` in `perimeter/models.py` — `created_at` is set once
on the first persist and never changed, `updated_at` is refreshed on
every persist.  `now` is the wall clock at the moment of saving. -/
def AccessToken.save (t : AccessToken) (now : Nat) : AccessToken :=
  { t with
    created_at := some (t.created_at.getD now),
    updated_at := some now }

/-- Modelled from the spec: persisting a token (create or update)
writes it to the store and overwrites its cache entry with the fresh
object, as one inseparable step. -/
def persist (st : PerimeterState) (t : AccessToken) (now : Nat) :
    AccessToken × PerimeterState :=
  let t2 := t.save now
  (t2,
   { st with
     store := t2 :: st.store.filter (fun u => !(u.token == t2.token)),
     cache := cacheSet st.cache (get_cache_key t2.token) t2 })

/-- Modelled from the spec: the error raised by
`create_access_token` when a caller-supplied token value collides with
an existing record. -/
inductive DuplicateTokenError where
  | duplicate (token : String)
deriving DecidableEq, Repr

/-- Modelled from the spec: the character set used for random token
values — digits plus uppercase letters, excluding the visually
ambiguous `0`, `O`, `1` and `I`. -/
def tokenChars : List Char :=
  "23456789ABCDEFGHJKLMNPQRSTUVWXYZ".toList

/-- Modelled from the spec: the configured fixed token length
(default 10). -/
def tokenLength : Nat := 10

/-- Modelled from the spec: `AccessToken.random_token_value` of
`perimeter/models.py` — a string of `tokenLength` characters drawn
from `tokenChars`; `choice` is the stream of random draws consumed by
the generator. -/
def random_token_value (choice : Nat → Nat) : String :=
  String.mk ((List.range tokenLength).map
    (fun i => tokenChars.getD (choice i % tokenChars.length) 'X'))

/-- Modelled from the spec: `create_access_token` of the token manager
in `perimeter/models.py` — a caller-supplied token value is used
verbatim (colliding with the unique constraint raises
`DuplicateTokenError`); otherwise a random value is generated.  The
record is persisted immediately, which also populates the cache. -/
def create_access_token (st : PerimeterState) (tok : Option String)
    (choice : Nat → Nat) (today : Int) (expiry_days : Int) (now : Nat) :
    Except DuplicateTokenError (AccessToken × PerimeterState) :=
  let value := tok.getD (random_token_value choice)
  match storeGet st.store value with
  | some _ => .error (.duplicate value)
  | Option.none =>
      .ok (persist st
        { token := value, expires_on := default_expiry today expiry_days } now)

/-- Modelled from the spec: `get_access_token` of the token manager in
`perimeter/models.py` — look up via the cache first; on a cache miss
query the store and populate the cache with the result; if no matching
record exists return the `EmptyToken` sentinel rather than failing. -/
def get_access_token (st : PerimeterState) (token : String) :
    Token × PerimeterState :=
  match cacheGet st.cache (get_cache_key token) with
  | some t => (.found t, st)
  | Option.none =>
      match storeGet st.store token with
      | some t =>
          (.found t,
           { st with cache := cacheSet st.cache (get_cache_key token) t })
      | Option.none => (.emptyToken, st)

/-- Modelled from the spec: `AccessToken.delete` — removes the record
from the store and evicts its cache entry. -/
def delete_token (st : PerimeterState) (token : String) : PerimeterState :=
  { st with
    store := st.store.filter (fun u => !(u.token == token)),
    cache := cacheEvict st.cache (get_cache_key token) }

/-- Modelled from the spec: `AccessToken.record` of
`perimeter/models.py` — appends exactly one `AccessTokenUse`
referencing the redeemed token, defaulting any absent identity or
network field to the sentinel string `"unknown"`. -/
def record (st : PerimeterState) (t : AccessToken)
    (user_email user_name client_ip client_user_agent : Option String)
    (now : Nat) : AccessTokenUse × PerimeterState :=
  let atu : AccessTokenUse :=
    { token := t.token,
      user_email := user_email.getD "unknown",
      user_name := user_name.getD "unknown",
      client_ip := client_ip.getD "unknown",
      client_user_agent := client_user_agent.getD "unknown",
      timestamp := now }
  (atu, { st with uses := st.uses ++ [atu] })

/-- Well-formedness of the shared state: every cache entry sits under
the cache key of its token and mirrors the stored record, which is the
discipline the write-through cache maintains. -/
def PerimeterState.wf (st : PerimeterState) : Prop :=
  ∀ p ∈ st.cache,
    p.1 = get_cache_key p.2.token ∧ storeGet st.store p.2.token = some p.2

/-- One vector of random draws consumed by the token generator: one
character index per output position. -/
abbrev TokenDraws := Fin tokenLength → Fin tokenChars.length

/-- The character the generator emits for one in-range draw. -/
def charAt (i : Fin tokenChars.length) : Char :=
  tokenChars.getD (i : Nat) 'X'

/-- The token generator restricted to canonical in-range draw vectors,
used to count colliding pairs of draws. -/
def genToken (c : TokenDraws) : String :=
  random_token_value
    (fun i => if h : i < tokenLength then (c ⟨i, h⟩ : Nat) else 0)

/-- The world with no stored tokens, an empty cache and no usage
records. -/
def emptyState : PerimeterState := ⟨[], [], []⟩

/-- A never-persisted sample token used to instantiate theorems. -/
def sampleToken : AccessToken := { token := "T", expires_on := 0 }

/-- A process environment defining no variables. -/
def envNone : String → Option String := fun _ => Option.none

/-- Framework settings defining no perimeter options. -/
def stgNone : String → Option PyVal := fun _ => Option.none

/-- The token produced by creating "x" in the empty world at day 0
with a 7-day expiry and wall clock 5. -/
def sampleCreated : AccessToken :=
  { token := "x", is_active := true, expires_on := 7,
    created_at := some 5, updated_at := some 5, created_by := Option.none }

/-- The world after that creation: the record is stored and its cache
entry populated. -/
def sampleState1 : PerimeterState :=
  { store := [sampleCreated],
    cache := [("perimeter:token:x", sampleCreated)],
    uses := [] }

end Perimeter

namespace Perimeter

/-- A predicate finds nothing in a list filtered by an incompatible
predicate. -/
theorem find?_filter_incompat {α : Type} (l : List α) (p q : α → Bool)
    (h : ∀ a, q a = true → p a = false) :
    (l.filter q).find? p = Option.none := by
  rw [List.find?_eq_none]
  intro x hx
  rw [List.mem_filter] at hx
  simp [h x hx.2]

/-- Cache keys are injective in the token value. -/
theorem get_cache_key_injective {a b : String}
    (h : get_cache_key a = get_cache_key b) : a = b := by
  unfold get_cache_key at h
  have h2 := congrArg String.data h
  rw [String.data_append _ a, String.data_append _ b] at h2
  exact congrArg String.mk (List.append_cancel_left h2)

/-- In a well-formed state, a token missing from the store has no
cache entry either. -/
theorem cacheGet_eq_none_of_wf {st : PerimeterState} {token : String}
    (hwf : st.wf) (hs : storeGet st.store token = Option.none) :
    cacheGet st.cache (get_cache_key token) = Option.none := by
  cases hfind : st.cache.find? (fun p => p.1 == get_cache_key token) with
  | none => simp [cacheGet, hfind]
  | some p =>
    exfalso
    have hmem := List.mem_of_find?_eq_some hfind
    have hpred := List.find?_some hfind
    have hkey : p.1 = get_cache_key token := by simpa using hpred
    obtain ⟨hk, hstore⟩ := hwf p hmem
    have heq : token = p.2.token := get_cache_key_injective (by rw [← hkey, hk])
    rw [← heq] at hstore
    rw [hs] at hstore
    exact Option.noConfusion hstore

/-- C1: for every access token, `is_valid` holds exactly when
`is_active` is true and `expires_on` is on or after today; expiry is
inclusive, so an active token is still valid on its expiry date and
becomes invalid only the day after. -/
theorem is_valid_iff_active_and_unexpired :
    ∀ (t : AccessToken) (today : Int),
      (t.is_valid today = true ↔ (t.is_active = true ∧ t.expires_on ≥ today))
      ∧ t.is_valid t.expires_on = t.is_active
      ∧ t.is_valid (t.expires_on + 1) = false := by
  intro t today
  refine ⟨?_, ?_, ?_⟩
  · simp [AccessToken.is_valid]
  · simp [AccessToken.is_valid]
  · have h : ¬ (t.expires_on ≥ t.expires_on + 1) := by omega
    simp [AccessToken.is_valid, h]

/-- C2: `has_expired` holds exactly when `expires_on` is strictly
before today, independently of `is_active`; a deactivated token whose
expiry date is today or later is not expired yet still invalid. -/
theorem has_expired_iff_past_expiry :
    ∀ (t : AccessToken) (today : Int),
      (t.has_expired today = true ↔ t.expires_on < today)
      ∧ (∀ b : Bool,
          AccessToken.has_expired { t with is_active := b } today
            = t.has_expired today)
      ∧ AccessToken.has_expired
          { t with is_active := false, expires_on := today } today = false
      ∧ AccessToken.is_valid
          { t with is_active := false, expires_on := today } today = false
      ∧ AccessToken.has_expired
          { t with is_active := false, expires_on := today + 1 } today = false
      ∧ AccessToken.is_valid
          { t with is_active := false, expires_on := today + 1 } today = false := by
  intro t today
  refine ⟨by simp [AccessToken.has_expired], fun b => rfl, ?_, rfl, ?_, rfl⟩
  · simp [AccessToken.has_expired]
  · have h : ¬ (today + 1 < today) := by omega
    simp [AccessToken.has_expired, h]

/-- C6: `created_at` is set on the first save and untouched by a later
save, while `updated_at` is refreshed each save; with a strictly
increasing clock the second save leaves `updated_at` strictly after
`created_at`. -/
theorem save_timestamps :
    ∀ (t : AccessToken) (n1 n2 : Nat), t.created_at = Option.none → n1 < n2 →
      (t.save n1).created_at = some n1
      ∧ (t.save n1).updated_at = some n1
      ∧ ((t.save n1).save n2).created_at = some n1
      ∧ ((t.save n1).save n2).updated_at = some n2
      ∧ (∀ c u : Nat, ((t.save n1).save n2).created_at = some c →
          ((t.save n1).save n2).updated_at = some u → c < u) := by
  intro t n1 n2 hc hlt
  refine ⟨by simp [AccessToken.save, hc], by simp [AccessToken.save], ?_, ?_, ?_⟩
  · simp [AccessToken.save, hc]
  · simp [AccessToken.save]
  · intro c u h1 h2
    simp [AccessToken.save, hc] at h1 h2
    omega

/-- Witness for C6 at a concrete token and clock ticks 1 and 2. -/
theorem save_timestamps_witness :
    sampleToken.created_at = Option.none ∧ (1:Nat) < 2
    ∧ ((sampleToken.save 1).save 2).created_at = some 1
    ∧ ((sampleToken.save 1).save 2).updated_at = some 2 :=
  ⟨rfl, by decide,
   (save_timestamps sampleToken 1 2 rfl (by decide)).2.2.1,
   (save_timestamps sampleToken 1 2 rfl (by decide)).2.2.2.1⟩

end Perimeter

namespace Perimeter

/-- C3: looking up a token value with no matching stored record in a
well-formed world returns the `EmptyToken` sentinel (leaving the world
unchanged), and the sentinel's validity is unconditionally false. -/
theorem lookup_miss_returns_empty_token :
    ∀ (st : PerimeterState) (token : String),
      st.wf → storeGet st.store token = Option.none →
      get_access_token st token = (Token.emptyToken, st)
      ∧ (∀ today : Int,
          Token.is_valid (get_access_token st token).1 today = false)
      ∧ (∀ today : Int, Token.is_valid Token.emptyToken today = false) := by
  intro st token hwf hs
  have hc := cacheGet_eq_none_of_wf hwf hs
  have hga : get_access_token st token = (Token.emptyToken, st) := by
    simp [get_access_token, hc, hs]
  exact ⟨hga, fun today => by simp [hga, Token.is_valid], fun _ => rfl⟩

/-- Witness for C3: a miss in the empty world. -/
theorem lookup_miss_returns_empty_token_witness :
    emptyState.wf ∧ storeGet emptyState.store "x" = Option.none
    ∧ get_access_token emptyState "x" = (Token.emptyToken, emptyState) :=
  ⟨fun p hp => absurd hp (List.not_mem_nil p), rfl,
   (lookup_miss_returns_empty_token emptyState "x"
     (fun p hp => absurd hp (List.not_mem_nil p)) rfl).1⟩

/-- C5: deleting a token removes its record from the store and evicts
its cache entry, so a subsequent lookup of that value returns the
`EmptyToken` sentinel. -/
theorem delete_evicts_store_and_cache :
    ∀ (st : PerimeterState) (token : String),
      storeGet (delete_token st token).store token = Option.none
      ∧ cacheGet (delete_token st token).cache (get_cache_key token)
          = Option.none
      ∧ get_access_token (delete_token st token) token
          = (Token.emptyToken, delete_token st token) := by
  intro st token
  have hs : storeGet (delete_token st token).store token = Option.none := by
    unfold delete_token storeGet
    exact find?_filter_incompat _ _ _ (fun a ha => by simpa using ha)
  have hc : cacheGet (delete_token st token).cache (get_cache_key token)
      = Option.none := by
    unfold delete_token cacheEvict cacheGet
    rw [find?_filter_incompat _ _ _ (fun a ha => by simpa using ha)]
    rfl
  exact ⟨hs, hc, by simp [get_access_token, hc, hs]⟩

/-- C4: a freshly created token can be looked up by its value,
yielding an equal object from the cache; after clearing the cache the
lookup still yields the equal object from the store and repopulates
the cache entry under the token's cache key. -/
theorem create_then_lookup_roundtrip :
    ∀ (st : PerimeterState) (tok : Option String) (choice : Nat → Nat)
      (today expiry_days : Int) (now : Nat)
      (t : AccessToken) (st1 : PerimeterState),
      create_access_token st tok choice today expiry_days now
        = Except.ok (t, st1) →
      cacheGet st1.cache (get_cache_key t.token) = some t
      ∧ get_access_token st1 t.token = (Token.found t, st1)
      ∧ get_access_token { st1 with cache := [] } t.token
          = (Token.found t,
             { st1 with cache := cacheSet [] (get_cache_key t.token) t })
      ∧ cacheGet (cacheSet [] (get_cache_key t.token) t)
          (get_cache_key t.token) = some t := by
  intro st tok choice today expiry_days now t st1 h
  simp only [create_access_token] at h
  cases hsg : storeGet st.store (tok.getD (random_token_value choice)) with
  | some u => rw [hsg] at h; exact absurd h (by simp)
  | none =>
    rw [hsg] at h
    have h2 : persist st
        { token := tok.getD (random_token_value choice),
          expires_on := default_expiry today expiry_days } now = (t, st1) := by
      injection h
    have ht : t = (persist st
        { token := tok.getD (random_token_value choice),
          expires_on := default_expiry today expiry_days } now).1 := by rw [h2]
    have hst : st1 = (persist st
        { token := tok.getD (random_token_value choice),
          expires_on := default_expiry today expiry_days } now).2 := by rw [h2]
    subst ht hst
    refine ⟨?_, ?_, ?_, ?_⟩
    · simp [persist, AccessToken.save, cacheGet, cacheSet]
    · simp [get_access_token, persist, AccessToken.save, cacheGet, cacheSet]
    · simp [get_access_token, persist, AccessToken.save, cacheGet, cacheSet,
        storeGet]
    · simp [persist, AccessToken.save, cacheGet, cacheSet]

/-- Witness for C4: creating token "x" in the empty world. -/
theorem create_then_lookup_roundtrip_witness :
    create_access_token emptyState (some "x") (fun _ => 0) 0 7 5
      = Except.ok (sampleCreated, sampleState1)
    ∧ cacheGet sampleState1.cache (get_cache_key sampleCreated.token)
        = some sampleCreated
    ∧ get_access_token sampleState1 sampleCreated.token
        = (Token.found sampleCreated, sampleState1) :=
  ⟨rfl,
   (create_then_lookup_roundtrip emptyState (some "x") (fun _ => 0) 0 7 5
     sampleCreated sampleState1 rfl).1,
   (create_then_lookup_roundtrip emptyState (some "x") (fun _ => 0) 0 7 5
     sampleCreated sampleState1 rfl).2.1⟩

end Perimeter

namespace Perimeter

/-- The emitted character determines the in-range draw. -/
theorem charAt_injective : Function.Injective charAt := by decide

/-- The canonical generator is injective: two draw vectors that yield
the same token string are equal, so a collision between two
generations forces every underlying draw to coincide. -/
theorem genToken_injective : Function.Injective genToken := by
  intro c1 c2 h
  unfold genToken random_token_value at h
  have hlist := congrArg String.data h
  simp only [] at hlist
  funext i
  have h1 := congrArg (fun l => l.getD (i : Nat) 'X') hlist
  have hi : (i : Nat) < tokenLength := i.isLt
  have hlen1 : (i : Nat) < ((List.range tokenLength).map
      (fun j => tokenChars.getD
        ((if h : j < tokenLength then (c1 ⟨j, h⟩ : Nat) else 0)
          % tokenChars.length) 'X')).length := by
    simp [hi]
  have hlen2 : (i : Nat) < ((List.range tokenLength).map
      (fun j => tokenChars.getD
        ((if h : j < tokenLength then (c2 ⟨j, h⟩ : Nat) else 0)
          % tokenChars.length) 'X')).length := by
    simp [hi]
  dsimp only at h1
  rw [List.getD_eq_getElem _ _ hlen1, List.getD_eq_getElem _ _ hlen2] at h1
  simp only [List.getElem_map, List.getElem_range, hi, dif_pos] at h1
  rw [Nat.mod_eq_of_lt (c1 ⟨(i : Nat), hi⟩).isLt,
      Nat.mod_eq_of_lt (c2 ⟨(i : Nat), hi⟩).isLt] at h1
  have h2 := charAt_injective h1
  simpa using h2

end Perimeter

namespace Perimeter

/-- C7: a generated token value always has the configured fixed length
(10) and draws every character from the safe set of digits and
uppercase letters; the restriction of the generator to in-range draw
vectors is injective, so among all pairs of independent draw vectors
exactly one in `32 ^ 10` collides (the diagonal), making two
consecutive generations distinct with overwhelming probability. -/
theorem random_token_value_shape :
    (∀ choice : Nat → Nat, (random_token_value choice).length = tokenLength)
    ∧ tokenLength = 10
    ∧ (∀ (choice : Nat → Nat) (ch : Char),
        ch ∈ (random_token_value choice).toList → ch ∈ tokenChars)
    ∧ Function.Injective genToken
    ∧ random_token_value (fun _ => 0) ≠ random_token_value (fun _ => 1)
    ∧ Fintype.card { p : TokenDraws × TokenDraws // genToken p.1 = genToken p.2 }
        = tokenChars.length ^ tokenLength
    ∧ Fintype.card (TokenDraws × TokenDraws)
        = tokenChars.length ^ (2 * tokenLength) := by
  refine ⟨?_, rfl, ?_, genToken_injective, by decide, ?_, ?_⟩
  · intro choice
    simp [random_token_value]
  · intro choice ch hch
    have hch2 : ch ∈ (List.range tokenLength).map
        (fun i => tokenChars.getD (choice i % tokenChars.length) 'X') := hch
    obtain ⟨i, _, hval⟩ := List.mem_map.mp hch2
    have hlt : choice i % tokenChars.length < tokenChars.length :=
      Nat.mod_lt _ (by decide)
    rw [← hval, List.getD_eq_getElem _ _ hlt]
    exact List.getElem_mem hlt
  · have e : { p : TokenDraws × TokenDraws // genToken p.1 = genToken p.2 }
        ≃ TokenDraws :=
      { toFun := fun p => p.1.1
        invFun := fun v => ⟨(v, v), rfl⟩
        left_inv := by
          rintro ⟨⟨a, b⟩, hab⟩
          have hb : a = b := genToken_injective hab
          subst hb
          rfl
        right_inv := fun v => rfl }
    rw [Fintype.card_congr e, Fintype.card_fun, Fintype.card_fin,
      Fintype.card_fin]
  · rw [Fintype.card_prod, Fintype.card_fun, Fintype.card_fin,
      Fintype.card_fin, two_mul, pow_add]

/-- Witness for C7: the first character of a concretely generated
token belongs to the safe character set. -/
theorem random_token_value_shape_witness :
    '2' ∈ (random_token_value (fun _ => 0)).toList ∧ '2' ∈ tokenChars :=
  ⟨by decide, random_token_value_shape.2.2.1 (fun _ => 0) '2' (by decide)⟩

end Perimeter

namespace Perimeter

/-- C8: redeeming a token appends exactly one usage record to the log
(leaving store and cache untouched); the record references the
redeemed token's value, carries every supplied identity field
verbatim, and fills every absent field with the sentinel "unknown". -/
theorem record_appends_one_use :
    ∀ (st : PerimeterState) (t : AccessToken)
      (user_email user_name client_ip client_user_agent : Option String)
      (now : Nat),
      (record st t user_email user_name client_ip client_user_agent now).2.uses
        = st.uses
          ++ [(record st t user_email user_name client_ip client_user_agent now).1]
      ∧ (record st t user_email user_name client_ip client_user_agent now).2.uses.length
          = st.uses.length + 1
      ∧ (record st t user_email user_name client_ip client_user_agent now).1.token
          = t.token
      ∧ (record st t user_email user_name client_ip client_user_agent now).2.store
          = st.store
      ∧ (record st t user_email user_name client_ip client_user_agent now).2.cache
          = st.cache
      ∧ (∀ e, user_email = some e →
          (record st t user_email user_name client_ip client_user_agent now).1.user_email = e)
      ∧ (user_email = Option.none →
          (record st t user_email user_name client_ip client_user_agent now).1.user_email = "unknown")
      ∧ (∀ e, user_name = some e →
          (record st t user_email user_name client_ip client_user_agent now).1.user_name = e)
      ∧ (user_name = Option.none →
          (record st t user_email user_name client_ip client_user_agent now).1.user_name = "unknown")
      ∧ (∀ e, client_ip = some e →
          (record st t user_email user_name client_ip client_user_agent now).1.client_ip = e)
      ∧ (client_ip = Option.none →
          (record st t user_email user_name client_ip client_user_agent now).1.client_ip = "unknown")
      ∧ (∀ e, client_user_agent = some e →
          (record st t user_email user_name client_ip client_user_agent now).1.client_user_agent = e)
      ∧ (client_user_agent = Option.none →
          (record st t user_email user_name client_ip client_user_agent now).1.client_user_agent = "unknown") := by
  intro st t ue un ci ca now
  refine ⟨rfl, by simp [record], rfl, rfl, rfl, ?_, ?_, ?_, ?_, ?_, ?_, ?_, ?_⟩
  all_goals intro x
  · intro hx; simp [record, hx]
  · simp [record, x]
  · intro hx; simp [record, hx]
  · simp [record, x]
  · intro hx; simp [record, hx]
  · simp [record, x]
  · intro hx; simp [record, hx]
  · simp [record, x]

/-- Witness for C8: a redemption with only the email supplied. -/
theorem record_appends_one_use_witness :
    (some "a@b.c" : Option String) = some "a@b.c"
    ∧ (Option.none : Option String) = Option.none
    ∧ (record emptyState sampleToken (some "a@b.c") Option.none Option.none
        Option.none 3).1.user_email = "a@b.c"
    ∧ (record emptyState sampleToken (some "a@b.c") Option.none Option.none
        Option.none 3).1.user_name = "unknown" :=
  ⟨rfl, rfl,
   (record_appends_one_use emptyState sampleToken (some "a@b.c") Option.none
     Option.none Option.none 3).2.2.2.2.2.1 "a@b.c" rfl,
   (record_appends_one_use emptyState sampleToken (some "a@b.c") Option.none
     Option.none Option.none 3).2.2.2.2.2.2.2.2.1 rfl⟩

/-- C9: with no environment variable and no framework setting defined,
the three options evaluate to their documented defaults (gate disabled,
session key "perimeter", expiry 7 days, the last returned by the
fallible integer cast); and in general a non-empty environment value
wins over the settings, the settings value or the default being used
otherwise, with the cast applied in every case. -/
theorem settings_defaults_and_lookup_order :
    (∀ (env : String → Option String) (stg : String → Option PyVal),
       env "PERIMETER_ENABLED" = Option.none →
       stg "PERIMETER_ENABLED" = Option.none →
       PERIMETER_ENABLED env stg = PyVal.bool false)
    ∧ (∀ (env : String → Option String) (stg : String → Option PyVal),
       env "PERIMETER_SESSION_KEY" = Option.none →
       stg "PERIMETER_SESSION_KEY" = Option.none →
       PERIMETER_SESSION_KEY env stg = PyVal.str "perimeter")
    ∧ (∀ (env : String → Option String) (stg : String → Option PyVal),
       env "PERIMETER_DEFAULT_EXPIRY" = Option.none →
       stg "PERIMETER_DEFAULT_EXPIRY" = Option.none →
       PERIMETER_DEFAULT_EXPIRY env stg = some 7)
    ∧ (∀ (α : Type) (env : String → Option String)
         (stg : String → Option PyVal) (name : String) (default : PyVal)
         (cast : PyVal → α) (s : String),
       env name = some s → s ≠ "" →
       get_setting env stg name default cast = cast (.str s))
    ∧ (∀ (α : Type) (env : String → Option String)
         (stg : String → Option PyVal) (name : String) (default : PyVal)
         (cast : PyVal → α),
       env name = Option.none →
       get_setting env stg name default cast
         = cast ((stg name).getD default)) := by
  refine ⟨?_, ?_, ?_, ?_, ?_⟩
  · intro env stg h1 h2
    simp [PERIMETER_ENABLED, get_setting, h1, h2, pyTruthy, CAST_AS_BOOL, pyEq]
  · intro env stg h1 h2
    simp [PERIMETER_SESSION_KEY, get_setting, h1, h2, pyTruthy]
  · intro env stg h1 h2
    simp [PERIMETER_DEFAULT_EXPIRY, get_setting, h1, h2, pyTruthy, CAST_AS_INT]
  · intro α env stg name default cast s h1 h2
    simp [get_setting, h1, pyTruthy, h2]
  · intro α env stg name default cast h1
    simp [get_setting, h1, pyTruthy]

/-- Witness for C9: the empty environment and empty settings. -/
theorem settings_defaults_witness :
    envNone "PERIMETER_ENABLED" = Option.none
    ∧ stgNone "PERIMETER_ENABLED" = Option.none
    ∧ PERIMETER_ENABLED envNone stgNone = PyVal.bool false :=
  ⟨rfl, rfl, settings_defaults_and_lookup_order.1 envNone stgNone rfl rfl⟩

/-- Counterexample for C10: Python compares tuple members with `==`
and `True == 1`, so `CAST_AS_BOOL` also maps the integer `1` (for
instance supplied as a framework settings value) to true, not false. -/
theorem cast_as_bool_true_on_int_one :
    CAST_AS_BOOL (PyVal.int 1) = PyVal.bool true
    ∧ PERIMETER_ENABLED envNone
        (fun n => if n = "PERIMETER_ENABLED" then some (PyVal.int 1)
                  else Option.none)
        = PyVal.bool true := by
  constructor
  · rfl
  · simp [PERIMETER_ENABLED, get_setting, envNone, pyTruthy, CAST_AS_BOOL, pyEq]

/-- C10 as amended: `CAST_AS_BOOL` maps exactly `True`, `'true'`,
`'True'` and the values Python-equal to `True` (the number 1) to true
and everything else to false; in particular every string other than
`'true'` and `'True'` — including `'1'`, `'TRUE'`, `'yes'` and `'on'`
— maps to false, so those environment values leave the gate
disabled. -/
theorem cast_as_bool_amended :
    (∀ v : PyVal, CAST_AS_BOOL v = PyVal.bool true ↔
       (v = PyVal.bool true ∨ v = PyVal.str "true" ∨ v = PyVal.str "True"
        ∨ v = PyVal.int 1))
    ∧ (∀ v : PyVal, CAST_AS_BOOL v = PyVal.bool true
        ∨ CAST_AS_BOOL v = PyVal.bool false)
    ∧ (∀ s : String, s ≠ "true" → s ≠ "True" →
        CAST_AS_BOOL (PyVal.str s) = PyVal.bool false)
    ∧ (∀ stg : String → Option PyVal,
        PERIMETER_ENABLED
          (fun n => if n = "PERIMETER_ENABLED" then some "1" else Option.none)
          stg = PyVal.bool false)
    ∧ (∀ stg : String → Option PyVal,
        PERIMETER_ENABLED
          (fun n => if n = "PERIMETER_ENABLED" then some "TRUE" else Option.none)
          stg = PyVal.bool false)
    ∧ (∀ stg : String → Option PyVal,
        PERIMETER_ENABLED
          (fun n => if n = "PERIMETER_ENABLED" then some "yes" else Option.none)
          stg = PyVal.bool false)
    ∧ (∀ stg : String → Option PyVal,
        PERIMETER_ENABLED
          (fun n => if n = "PERIMETER_ENABLED" then some "on" else Option.none)
          stg = PyVal.bool false) := by
  refine ⟨?_, ?_, ?_, ?_, ?_, ?_, ?_⟩
  · intro v
    cases v with
    | none => simp [CAST_AS_BOOL, pyEq]
    | bool b => cases b <;> simp [CAST_AS_BOOL, pyEq]
    | int n =>
      simp only [CAST_AS_BOOL, pyEq]
      constructor
      · intro h
        simp at h
        right; right; right
        simp [h]
      · intro h
        rcases h with h | h | h | h <;> simp_all
    | str s => simp [CAST_AS_BOOL, pyEq]
  · intro v
    cases h : CAST_AS_BOOL v with
    | none => exact absurd h (by cases v <;> simp [CAST_AS_BOOL])
    | bool b => cases b
                · right; rfl
                · left; rfl
    | int n => exact absurd h (by cases v <;> simp [CAST_AS_BOOL])
    | str s => exact absurd h (by cases v <;> simp [CAST_AS_BOOL])
  · intro s h1 h2
    simp [CAST_AS_BOOL, pyEq, h1, h2]
  · intro stg
    simp [PERIMETER_ENABLED, get_setting, pyTruthy, CAST_AS_BOOL, pyEq]
  · intro stg
    simp [PERIMETER_ENABLED, get_setting, pyTruthy, CAST_AS_BOOL, pyEq]
  · intro stg
    simp [PERIMETER_ENABLED, get_setting, pyTruthy, CAST_AS_BOOL, pyEq]
  · intro stg
    simp [PERIMETER_ENABLED, get_setting, pyTruthy, CAST_AS_BOOL, pyEq]

/-- Witness for C10's amended statement: "yes" is neither "true" nor
"True" and casts to false. -/
theorem cast_as_bool_amended_witness :
    ("yes" ≠ "true") ∧ ("yes" ≠ "True")
    ∧ CAST_AS_BOOL (PyVal.str "yes") = PyVal.bool false :=
  ⟨by decide, by decide,
   cast_as_bool_amended.2.2.1 "yes" (by decide) (by decide)⟩

end Perimeter
